import Mathlib

/-!
# Verification of the k8s backup/DR operator's reconciliation core

Shallow embedding of the three reconcile loops of the operator
(`internal/controller/backuppolicy_controller.go` — both
`BackupPolicyReconciler.Reconcile` and `BackupReconciler.Reconcile` — and
`internal/controller/restore_controller.go`, `RestoreReconciler.Reconcile`),
together with the API types of `api/v1alpha1`.

Modelling decisions:
* Kubernetes API interactions are made explicit: the set of Backups visible
  to a `List`/`Get` is a parameter, the outcome of a Job `Get` is a
  `GetJobResult`, and the outcome of a `Create` call is a `CreateResult`
  (success / AlreadyExists error / any other error).  Status `Update` calls
  are modelled as succeeding; each performed status write is recorded in the
  `writes` field of the reconcile output so that the sequence of *persisted*
  statuses is observable.
* `metav1.Time` is a civil date-time record (the code never compares times,
  it only stamps them and formats `time.Now()` with layout
  `"20060102-150405"`).
* Phases are the Go strings, with `""` as the unset (Pending) value, exactly
  as the controllers compare them.
* Object metadata irrelevant to control flow (UID, owner references, labels)
  is omitted; names and namespaces are kept.
-/

/-- Civil date-time, standing in for `metav1.Time` / Go `time.Time`. -/
structure Time where
  year : Nat
  month : Nat
  day : Nat
  hour : Nat
  minute : Nat
  second : Nat
  deriving Repr, DecidableEq

/-- Two-digit zero-padded decimal, as in Go's layout components `01`..`05`. -/
def pad2 (n : Nat) : String :=
  if n < 10 then "0" ++ toString n else toString n

/-- Four-digit zero-padded decimal, as in Go's layout component `2006`. -/
def pad4 (n : Nat) : String :=
  if n < 10 then "000" ++ toString n
  else if n < 100 then "00" ++ toString n
  else if n < 1000 then "0" ++ toString n
  else toString n

/-- Go `t.Format("20060102-150405")`, the compact numeric timestamp used in
Backup names (`backuppolicy_controller.go` line 90). -/
def formatCompactTimestamp (t : Time) : String :=
  pad4 t.year ++ pad2 t.month ++ pad2 t.day ++ "-" ++
    pad2 t.hour ++ pad2 t.minute ++ pad2 t.second

/-- Model of `metav1.Condition`. -/
structure Condition where
  type : String
  status : String
  reason : String
  message : String
  lastTransitionTime : Time
  deriving Repr, DecidableEq

/-- Model of `BackupTarget` (`api/v1alpha1/backuppolicy_types.go`). -/
structure BackupTarget where
  pvcName : String
  ns : String
  deriving Repr, DecidableEq

/-- Model of `RetentionPolicy` (`api/v1alpha1/backuppolicy_types.go`). -/
structure RetentionPolicy where
  keepLast : Option Nat
  deriving Repr, DecidableEq

/-- Model of `BackupPolicySpec`. -/
structure BackupPolicySpec where
  schedule : String
  target : BackupTarget
  retention : Option RetentionPolicy
  deriving Repr, DecidableEq

/-- Model of `BackupPolicyStatus`. -/
structure BackupPolicyStatus where
  lastBackupTime : Option Time
  nextScheduledBackup : Option Time
  conditions : List Condition
  deriving Repr, DecidableEq

/-- Model of `BackupPolicy` (name/namespace from its ObjectMeta). -/
structure BackupPolicy where
  name : String
  ns : String
  spec : BackupPolicySpec
  status : BackupPolicyStatus
  deriving Repr, DecidableEq

/-- Model of `BackupSpec` (`api/v1alpha1/backup_types.go`). -/
structure BackupSpec where
  policyRef : String
  target : BackupTarget
  deriving Repr, DecidableEq

/-- Phase constants of `api/v1alpha1/backup_types.go`; the zero value of the
Go string type is `""`. -/
def BackupPhasePending : String := "Pending"

/-- Constant `BackupPhaseRunning`. -/
def BackupPhaseRunning : String := "Running"

/-- Constant `BackupPhaseCompleted`. -/
def BackupPhaseCompleted : String := "Completed"

/-- Constant `BackupPhaseFailed`. -/
def BackupPhaseFailed : String := "Failed"

/-- Model of `BackupStatus`. -/
structure BackupStatus where
  phase : String
  startTime : Option Time
  completionTime : Option Time
  backupLocation : String
  conditions : List Condition
  deriving Repr, DecidableEq

/-- The zero value of `BackupStatus`, as on a freshly created Backup. -/
def emptyBackupStatus : BackupStatus :=
  { phase := "", startTime := none, completionTime := none,
    backupLocation := "", conditions := [] }

/-- Model of `Backup` (name/namespace from its ObjectMeta). -/
structure Backup where
  name : String
  ns : String
  spec : BackupSpec
  status : BackupStatus
  deriving Repr, DecidableEq

/-- Model of `RestoreSpec` (`api/v1alpha1/restore_types.go`). -/
structure RestoreSpec where
  backupName : String
  targetPVC : String
  targetNamespace : String
  deriving Repr, DecidableEq

/-- Constant `RestorePhaseRunning` (`api/v1alpha1/restore_types.go`). -/
def RestorePhaseRunning : String := "Running"

/-- Constant `RestorePhaseCompleted`. -/
def RestorePhaseCompleted : String := "Completed"

/-- Constant `RestorePhaseFailed`. -/
def RestorePhaseFailed : String := "Failed"

/-- Model of `RestoreStatus`. -/
structure RestoreStatus where
  phase : String
  startTime : Option Time
  completionTime : Option Time
  restoredDataSize : String
  conditions : List Condition
  deriving Repr, DecidableEq

/-- The zero value of `RestoreStatus`, as on a freshly created Restore. -/
def emptyRestoreStatus : RestoreStatus :=
  { phase := "", startTime := none, completionTime := none,
    restoredDataSize := "", conditions := [] }

/-- Model of `Restore` (name/namespace from its ObjectMeta). -/
structure Restore where
  name : String
  ns : String
  spec : RestoreSpec
  status : RestoreStatus
  deriving Repr, DecidableEq

/-- Observable part of a `batchv1.Job` that the controllers read:
`Status.Succeeded` and `Status.Failed` counters. -/
structure Job where
  name : String
  ns : String
  succeeded : Nat
  failed : Nat
  deriving Repr, DecidableEq

/-- Outcome of the `r.Get` call on the child Job: found, a NotFound error,
or any other API error. -/
inductive GetJobResult where
  | found (j : Job)
  | notFound
  | getError
  deriving Repr, DecidableEq

/-- Outcome of an `r.Create` call: success, an `IsAlreadyExists` error, or
any other error. -/
inductive CreateResult where
  | ok
  | alreadyExists
  | otherError
  deriving Repr, DecidableEq

/-- Model of `ctrl.Result`: `requeueAfter = none` models `ctrl.Result{}`,
`some n` models `ctrl.Result{RequeueAfter: n * time.Second}`. -/
structure CtrlResult where
  requeueAfter : Option Nat
  deriving Repr, DecidableEq

/-- Value `ctrl.Result{}`. -/
def noRequeue : CtrlResult := { requeueAfter := none }

/-- Value `ctrl.Result{RequeueAfter: 10 * time.Second}`. -/
def requeueAfter10 : CtrlResult := { requeueAfter := some 10 }

/-! ## Policy scheduler (`BackupPolicyReconciler.Reconcile`, lines 53–132) -/

/-- Output of one reconciliation of a BackupPolicy: the (possibly updated)
policy, the resulting set of Backups (the input set plus any created one),
the created Backup if any, the returned `ctrl.Result`, and whether an error
was returned. -/
structure PolicyRecOut where
  policy : BackupPolicy
  backups : List Backup
  created : Option Backup
  result : CtrlResult
  err : Bool
  deriving Repr, DecidableEq

/-- Model of `BackupPolicyReconciler.Reconcile`: list Backups in the policy's
namespace, keep those with `Spec.PolicyRef == policy.Name`; if any exist,
return immediately; otherwise create a Backup named
`<policy>-<now formatted "20060102-150405">` with the policy's target, and
on success replace the policy's status conditions with a single
`Ready/True/BackupCreated` condition.  Any creation error (including
AlreadyExists — the code does not special-case it) is returned as a failure
before the status update. -/
def reconcileBackupPolicy (p : BackupPolicy) (backups : List Backup)
    (now : Time) (createRes : CreateResult) : PolicyRecOut :=
  let existingBackups := backups.filter (fun b => b.ns == p.ns)
  let ownedBackups := existingBackups.filter (fun b => b.spec.policyRef == p.name)
  if ownedBackups.length > 0 then
    { policy := p, backups := backups, created := none,
      result := noRequeue, err := false }
  else
    let backup : Backup :=
      { name := p.name ++ "-" ++ formatCompactTimestamp now,
        ns := p.ns,
        spec := { policyRef := p.name, target := p.spec.target },
        status := emptyBackupStatus }
    match createRes with
    | CreateResult.ok =>
        let p2 : BackupPolicy :=
          { p with status :=
              { p.status with conditions :=
                  [{ type := "Ready", status := "True",
                     reason := "BackupCreated",
                     message := "Initial backup created successfully",
                     lastTransitionTime := now }] } }
        { policy := p2, backups := backups ++ [backup], created := some backup,
          result := noRequeue, err := false }
    | _ =>
        { policy := p, backups := backups, created := none,
          result := noRequeue, err := true }

/-! ## Backup executor (`BackupReconciler.Reconcile`, lines 197–279) -/

/-- Output of one reconciliation of a Backup: the persisted object state,
the sequence of status writes performed, whether a Job create was issued
successfully, the `ctrl.Result`, and whether an error was returned. -/
structure BackupRecOut where
  backup : Backup
  writes : List BackupStatus
  jobCreated : Bool
  result : CtrlResult
  err : Bool
  deriving Repr, DecidableEq

/-- Model of `BackupReconciler.Reconcile`.  Terminal phases short-circuit; an unset
phase is stamped `Running` with a start time and persisted before the Job is
looked up; a finished Job flips the phase to `Completed` (recording the
backup location) or `Failed` (with completion time); a live Job requeues
after 10s; a missing Job is created, where an AlreadyExists error is
swallowed and any other create error sets the phase to `Failed` before the
error is returned. -/
def reconcileBackup (b : Backup) (now : Time) (jobLookup : GetJobResult)
    (createRes : CreateResult) : BackupRecOut :=
  if b.status.phase == BackupPhaseCompleted || b.status.phase == BackupPhaseFailed then
    { backup := b, writes := [], jobCreated := false,
      result := noRequeue, err := false }
  else
    let b1 : Backup :=
      if b.status.phase == "" then
        { b with status :=
            { b.status with
              phase := BackupPhaseRunning, startTime := some now } }
      else b
    let startWrites : List BackupStatus :=
      if b.status.phase == "" then [b1.status] else []
    match jobLookup with
    | GetJobResult.found j =>
        if j.succeeded > 0 then
          let st : BackupStatus :=
            { b1.status with
              phase := BackupPhaseCompleted,
              completionTime := some now,
              backupLocation := "/backups/" ++ b.name ++ ".tar.gz" }
          { backup := { b1 with status := st }, writes := startWrites ++ [st],
            jobCreated := false, result := noRequeue, err := false }
        else if j.failed > 0 then
          let st : BackupStatus :=
            { b1.status with
              phase := BackupPhaseFailed,
              completionTime := some now }
          { backup := { b1 with status := st }, writes := startWrites ++ [st],
            jobCreated := false, result := noRequeue, err := false }
        else
          { backup := b1, writes := startWrites, jobCreated := false,
            result := requeueAfter10, err := false }
    | GetJobResult.getError =>
        { backup := b1, writes := startWrites, jobCreated := false,
          result := noRequeue, err := true }
    | GetJobResult.notFound =>
        match createRes with
        | CreateResult.ok =>
            { backup := b1, writes := startWrites, jobCreated := true,
              result := requeueAfter10, err := false }
        | CreateResult.alreadyExists =>
            { backup := b1, writes := startWrites, jobCreated := false,
              result := requeueAfter10, err := false }
        | CreateResult.otherError =>
            let st : BackupStatus := { b1.status with phase := BackupPhaseFailed }
            { backup := { b1 with status := st }, writes := startWrites ++ [st],
              jobCreated := false, result := noRequeue, err := true }

/-! ## Restore executor (`RestoreReconciler.Reconcile`, lines 62–210) -/

/-- Output of one reconciliation of a Restore, mirroring `BackupRecOut`. -/
structure RestoreRecOut where
  restore : Restore
  writes : List RestoreStatus
  jobCreated : Bool
  result : CtrlResult
  err : Bool
  deriving Repr, DecidableEq

/-- Namespace resolution of `restore_controller.go` lines 82–85:
`Spec.TargetNamespace`, defaulting to the Restore's own namespace. -/
def resolvedTargetNamespace (rst : Restore) : String :=
  if rst.spec.targetNamespace == "" then rst.ns else rst.spec.targetNamespace

/-- The `r.Get` of the referenced Backup by name in the resolved target
namespace (`restore_controller.go` lines 87–89). -/
def lookupBackup (backups : List Backup) (name ns : String) : Option Backup :=
  backups.find? (fun b => b.name == name && b.ns == ns)

/-- Model of `RestoreReconciler.Reconcile`.  Terminal phases short-circuit; then the
referenced Backup is resolved: if absent, phase is set to `Failed` with a
`BackupNotFound` condition and the lookup error is returned; if present but
not `Completed`, phase is set to `Failed` with a `BackupNotReady` condition
(no error).  Only then is an unset phase stamped `Running` with a start time
and a `Progressing` condition; the Job logic mirrors the Backup executor,
with restore-specific conditions on completion and failure. -/
def reconcileRestore (rst : Restore) (backups : List Backup) (now : Time)
    (jobLookup : GetJobResult) (createRes : CreateResult) : RestoreRecOut :=
  if rst.status.phase == RestorePhaseCompleted || rst.status.phase == RestorePhaseFailed then
    { restore := rst, writes := [], jobCreated := false,
      result := noRequeue, err := false }
  else
    let targetNamespace := resolvedTargetNamespace rst
    match lookupBackup backups rst.spec.backupName targetNamespace with
    | none =>
        let st : RestoreStatus :=
          { rst.status with
            phase := RestorePhaseFailed,
            conditions :=
              [{ type := "Ready", status := "False",
                 reason := "BackupNotFound",
                 message := "Backup " ++ rst.spec.backupName ++ " not found",
                 lastTransitionTime := now }] }
        { restore := { rst with status := st }, writes := [st],
          jobCreated := false, result := noRequeue, err := true }
    | some backup =>
        if backup.status.phase != BackupPhaseCompleted then
          let st : RestoreStatus :=
            { rst.status with
              phase := RestorePhaseFailed,
              conditions :=
                [{ type := "Ready", status := "False",
                   reason := "BackupNotReady",
                   message := "Backup is in phase " ++ backup.status.phase ++
                     ", not Completed",
                   lastTransitionTime := now }] }
          { restore := { rst with status := st }, writes := [st],
            jobCreated := false, result := noRequeue, err := false }
        else
          let r1 : Restore :=
            if rst.status.phase == "" then
              { rst with status :=
                  { rst.status with
                    phase := RestorePhaseRunning,
                    startTime := some now,
                    conditions :=
                      [{ type := "Progressing", status := "True",
                         reason := "RestoreStarted",
                         message := "Restore job is being created",
                         lastTransitionTime := now }] } }
            else rst
          let startWrites : List RestoreStatus :=
            if rst.status.phase == "" then [r1.status] else []
          match jobLookup with
          | GetJobResult.found j =>
              if j.succeeded > 0 then
                let st : RestoreStatus :=
                  { r1.status with
                    phase := RestorePhaseCompleted,
                    completionTime := some now,
                    conditions :=
                      [{ type := "Ready", status := "True",
                         reason := "RestoreCompleted",
                         message := "Successfully restored from backup " ++ backup.name,
                         lastTransitionTime := now }] }
                { restore := { r1 with status := st }, writes := startWrites ++ [st],
                  jobCreated := false, result := noRequeue, err := false }
              else if j.failed > 0 then
                let st : RestoreStatus :=
                  { r1.status with
                    phase := RestorePhaseFailed,
                    completionTime := some now,
                    conditions :=
                      [{ type := "Ready", status := "False",
                         reason := "RestoreFailed",
                         message := "Restore job failed - check job logs for details",
                         lastTransitionTime := now }] }
                { restore := { r1 with status := st }, writes := startWrites ++ [st],
                  jobCreated := false, result := noRequeue, err := false }
              else
                { restore := r1, writes := startWrites, jobCreated := false,
                  result := requeueAfter10, err := false }
          | GetJobResult.getError =>
              { restore := r1, writes := startWrites, jobCreated := false,
                result := noRequeue, err := true }
          | GetJobResult.notFound =>
              match createRes with
              | CreateResult.ok =>
                  { restore := r1, writes := startWrites, jobCreated := true,
                    result := requeueAfter10, err := false }
              | CreateResult.alreadyExists =>
                  { restore := r1, writes := startWrites, jobCreated := false,
                    result := requeueAfter10, err := false }
              | CreateResult.otherError =>
                  let st : RestoreStatus := { r1.status with phase := RestorePhaseFailed }
                  { restore := { r1 with status := st }, writes := startWrites ++ [st],
                    jobCreated := false, result := noRequeue, err := true }

/-! ## Persisted-phase traces -/

/-- Last element of `p :: xs`. -/
def lastFrom : String → List String → String
  | p, [] => p
  | _, q :: rest => lastFrom q rest

/-- Predicate `isChainFrom allowed p [q1, …, qn]` holds when every consecutive pair of
`p, q1, …, qn` is an `allowed` transition. -/
def isChainFrom (allowed : String → String → Bool) : String → List String → Bool
  | _, [] => true
  | p, q :: rest => allowed p q && isChainFrom allowed q rest

theorem isChainFrom_append (allowed : String → String → Bool) (p : String)
    (xs ys : List String) :
    isChainFrom allowed p (xs ++ ys) =
      (isChainFrom allowed p xs && isChainFrom allowed (lastFrom p xs) ys) := by
  induction xs generalizing p with
  | nil => simp [isChainFrom, lastFrom]
  | cons q rest ih => simp [isChainFrom, lastFrom, ih, Bool.and_assoc]

/-- Phase transitions the Backup executor may persist: an unset phase is
stamped `Running`, and only a `Running` object reaches a terminal phase. -/
def backupPhaseStep (p q : String) : Bool :=
  (p == "" && q == BackupPhaseRunning) ||
  (p == BackupPhaseRunning && (q == BackupPhaseCompleted || q == BackupPhaseFailed))

/-- Phase transitions the Restore executor may persist: as for Backups, plus
the validation gate `"" → Failed` taken when the referenced Backup is absent
or not `Completed`. -/
def restorePhaseStep (p q : String) : Bool :=
  (p == "" && (q == RestorePhaseRunning || q == RestorePhaseFailed)) ||
  (p == RestorePhaseRunning && (q == RestorePhaseCompleted || q == RestorePhaseFailed))

/-- State invariant of a Backup under the executor: its phase is one of the
four machine states, and any phase other than the unset one carries a start
time. -/
def backupInv (b : Backup) : Bool :=
  b.status.phase == "" ||
  ((b.status.phase == BackupPhaseRunning || b.status.phase == BackupPhaseCompleted ||
      b.status.phase == BackupPhaseFailed) &&
    b.status.startTime.isSome)

/-- State invariant of a Restore under the executor: `Running` and
`Completed` carry a start time; `Failed` need not (the validation gate sets
`Failed` straight from the unset phase). -/
def restoreInv (rst : Restore) : Bool :=
  rst.status.phase == "" ||
  ((rst.status.phase == RestorePhaseRunning || rst.status.phase == RestorePhaseCompleted) &&
    rst.status.startTime.isSome) ||
  rst.status.phase == RestorePhaseFailed

theorem reconcileBackup_step_ok (b : Backup) (now : Time) (jl : GetJobResult)
    (cr : CreateResult) (hinv : backupInv b = true) :
    isChainFrom backupPhaseStep b.status.phase
        ((reconcileBackup b now jl cr).writes.map (fun w => w.phase)) = true ∧
    lastFrom b.status.phase ((reconcileBackup b now jl cr).writes.map (fun w => w.phase)) =
      (reconcileBackup b now jl cr).backup.status.phase ∧
    backupInv (reconcileBackup b now jl cr).backup = true ∧
    ∀ w ∈ (reconcileBackup b now jl cr).writes,
      (w.phase = BackupPhaseCompleted ∨ w.phase = BackupPhaseFailed) →
        w.startTime.isSome = true := by
  have hcase : b.status.phase = "" ∨
      ((b.status.phase = BackupPhaseRunning ∨ b.status.phase = BackupPhaseCompleted ∨
          b.status.phase = BackupPhaseFailed) ∧
        b.status.startTime.isSome = true) := by
    simp only [backupInv, Bool.or_eq_true, Bool.and_eq_true, beq_iff_eq] at hinv
    tauto
  rcases hcase with h | ⟨h | h | h, hs⟩
  · cases jl with
    | found j =>
      by_cases hsucc : j.succeeded > 0
      · simp [reconcileBackup, h, hsucc, isChainFrom, lastFrom, backupPhaseStep, backupInv,
          BackupPhaseRunning, BackupPhaseCompleted, BackupPhaseFailed]
      · by_cases hfail : j.failed > 0
        · simp [reconcileBackup, h, hsucc, hfail, isChainFrom, lastFrom, backupPhaseStep,
            backupInv, BackupPhaseRunning, BackupPhaseCompleted, BackupPhaseFailed]
        · simp [reconcileBackup, h, hsucc, hfail, isChainFrom, lastFrom, backupPhaseStep,
            backupInv, BackupPhaseRunning, BackupPhaseCompleted, BackupPhaseFailed]
    | notFound =>
      cases cr <;>
        simp [reconcileBackup, h, isChainFrom, lastFrom, backupPhaseStep, backupInv,
          BackupPhaseRunning, BackupPhaseCompleted, BackupPhaseFailed]
    | getError =>
      simp [reconcileBackup, h, isChainFrom, lastFrom, backupPhaseStep, backupInv,
        BackupPhaseRunning, BackupPhaseCompleted, BackupPhaseFailed]
  · cases jl with
    | found j =>
      by_cases hsucc : j.succeeded > 0
      · simp [reconcileBackup, h, hs, hsucc, isChainFrom, lastFrom, backupPhaseStep, backupInv,
          BackupPhaseRunning, BackupPhaseCompleted, BackupPhaseFailed]
      · by_cases hfail : j.failed > 0
        · simp [reconcileBackup, h, hs, hsucc, hfail, isChainFrom, lastFrom, backupPhaseStep,
            backupInv, BackupPhaseRunning, BackupPhaseCompleted, BackupPhaseFailed]
        · simp [reconcileBackup, h, hs, hsucc, hfail, isChainFrom, lastFrom, backupPhaseStep,
            backupInv, BackupPhaseRunning, BackupPhaseCompleted, BackupPhaseFailed]
    | notFound =>
      cases cr <;>
        simp [reconcileBackup, h, hs, isChainFrom, lastFrom, backupPhaseStep, backupInv,
          BackupPhaseRunning, BackupPhaseCompleted, BackupPhaseFailed]
    | getError =>
      simp [reconcileBackup, h, hs, isChainFrom, lastFrom, backupPhaseStep, backupInv,
        BackupPhaseRunning, BackupPhaseCompleted, BackupPhaseFailed]
  · simp [reconcileBackup, h, hs, isChainFrom, lastFrom, backupInv,
      BackupPhaseRunning, BackupPhaseCompleted, BackupPhaseFailed]
  · simp [reconcileBackup, h, hs, isChainFrom, lastFrom, backupInv,
      BackupPhaseRunning, BackupPhaseCompleted, BackupPhaseFailed]

theorem reconcileRestore_step_ok (rst : Restore) (backups : List Backup) (now : Time)
    (jl : GetJobResult) (cr : CreateResult) (hinv : restoreInv rst = true) :
    isChainFrom restorePhaseStep rst.status.phase
        ((reconcileRestore rst backups now jl cr).writes.map (fun w => w.phase)) = true ∧
    lastFrom rst.status.phase
        ((reconcileRestore rst backups now jl cr).writes.map (fun w => w.phase)) =
      (reconcileRestore rst backups now jl cr).restore.status.phase ∧
    restoreInv (reconcileRestore rst backups now jl cr).restore = true ∧
    ∀ w ∈ (reconcileRestore rst backups now jl cr).writes,
      w.phase = RestorePhaseCompleted → w.startTime.isSome = true := by
  have hcase : rst.status.phase = "" ∨
      ((rst.status.phase = RestorePhaseRunning ∨ rst.status.phase = RestorePhaseCompleted) ∧
        rst.status.startTime.isSome = true) ∨
      rst.status.phase = RestorePhaseFailed := by
    simp only [restoreInv, Bool.or_eq_true, Bool.and_eq_true, beq_iff_eq] at hinv
    tauto
  have main : rst.status.phase = "" ∨
      (rst.status.phase = RestorePhaseRunning ∧ rst.status.startTime.isSome = true) ∨
      rst.status.phase = RestorePhaseCompleted ∨ rst.status.phase = RestorePhaseFailed := by
    tauto
  rcases main with h | ⟨h, hs⟩ | h | h
  · cases hlb : lookupBackup backups rst.spec.backupName (resolvedTargetNamespace rst) with
    | none =>
      simp [reconcileRestore, h, hlb, isChainFrom, lastFrom, restorePhaseStep, restoreInv,
        RestorePhaseRunning, RestorePhaseCompleted, RestorePhaseFailed]
    | some bk =>
      by_cases hbk : bk.status.phase = BackupPhaseCompleted
      · cases jl with
        | found j =>
          by_cases hsucc : j.succeeded > 0
          · simp [reconcileRestore, h, hlb, hbk, hsucc, isChainFrom, lastFrom,
              restorePhaseStep, restoreInv, RestorePhaseRunning, RestorePhaseCompleted,
              RestorePhaseFailed]
          · by_cases hfail : j.failed > 0
            · simp [reconcileRestore, h, hlb, hbk, hsucc, hfail, isChainFrom, lastFrom,
                restorePhaseStep, restoreInv, RestorePhaseRunning, RestorePhaseCompleted,
                RestorePhaseFailed]
            · simp [reconcileRestore, h, hlb, hbk, hsucc, hfail, isChainFrom, lastFrom,
                restorePhaseStep, restoreInv, RestorePhaseRunning, RestorePhaseCompleted,
                RestorePhaseFailed]
        | notFound =>
          cases cr <;>
            simp [reconcileRestore, h, hlb, hbk, isChainFrom, lastFrom, restorePhaseStep,
              restoreInv, RestorePhaseRunning, RestorePhaseCompleted, RestorePhaseFailed]
        | getError =>
          simp [reconcileRestore, h, hlb, hbk, isChainFrom, lastFrom, restorePhaseStep,
            restoreInv, RestorePhaseRunning, RestorePhaseCompleted, RestorePhaseFailed]
      · simp [reconcileRestore, h, hlb, hbk, isChainFrom, lastFrom, restorePhaseStep,
          restoreInv, RestorePhaseRunning, RestorePhaseCompleted, RestorePhaseFailed]
  · cases hlb : lookupBackup backups rst.spec.backupName (resolvedTargetNamespace rst) with
    | none =>
      simp [reconcileRestore, h, hs, hlb, isChainFrom, lastFrom, restorePhaseStep, restoreInv,
        RestorePhaseRunning, RestorePhaseCompleted, RestorePhaseFailed]
    | some bk =>
      by_cases hbk : bk.status.phase = BackupPhaseCompleted
      · cases jl with
        | found j =>
          by_cases hsucc : j.succeeded > 0
          · simp [reconcileRestore, h, hs, hlb, hbk, hsucc, isChainFrom, lastFrom,
              restorePhaseStep, restoreInv, RestorePhaseRunning, RestorePhaseCompleted,
              RestorePhaseFailed]
          · by_cases hfail : j.failed > 0
            · simp [reconcileRestore, h, hs, hlb, hbk, hsucc, hfail, isChainFrom, lastFrom,
                restorePhaseStep, restoreInv, RestorePhaseRunning, RestorePhaseCompleted,
                RestorePhaseFailed]
            · simp [reconcileRestore, h, hs, hlb, hbk, hsucc, hfail, isChainFrom, lastFrom,
                restorePhaseStep, restoreInv, RestorePhaseRunning, RestorePhaseCompleted,
                RestorePhaseFailed]
        | notFound =>
          cases cr <;>
            simp [reconcileRestore, h, hs, hlb, hbk, isChainFrom, lastFrom, restorePhaseStep,
              restoreInv, RestorePhaseRunning, RestorePhaseCompleted, RestorePhaseFailed]
        | getError =>
          simp [reconcileRestore, h, hs, hlb, hbk, isChainFrom, lastFrom, restorePhaseStep,
            restoreInv, RestorePhaseRunning, RestorePhaseCompleted, RestorePhaseFailed]
      · simp [reconcileRestore, h, hs, hlb, hbk, isChainFrom, lastFrom, restorePhaseStep,
          restoreInv, RestorePhaseRunning, RestorePhaseCompleted, RestorePhaseFailed]
  · have hs : rst.status.startTime.isSome = true := by
      rcases hcase with h0 | ⟨_, hs⟩ | h0
      · rw [h] at h0; exact absurd h0 (by decide)
      · exact hs
      · rw [h] at h0; exact absurd h0 (by decide)
    simp [reconcileRestore, h, hs, isChainFrom, lastFrom, restoreInv, RestorePhaseRunning,
      RestorePhaseCompleted, RestorePhaseFailed]
  · simp [reconcileRestore, h, isChainFrom, lastFrom, restoreInv, RestorePhaseRunning,
      RestorePhaseCompleted, RestorePhaseFailed]

/-- Inputs of one Backup-executor reconciliation that come from the
environment: the wall clock and the API outcomes. -/
structure BackupEnv where
  now : Time
  jobLookup : GetJobResult
  createRes : CreateResult
  deriving Repr, DecidableEq

/-- The statuses persisted over a sequence of Backup reconciliations: each
step runs `reconcileBackup` and continues from the persisted object. -/
def backupTrace : Backup → List BackupEnv → List BackupStatus
  | _, [] => []
  | b, e :: es =>
    let out := reconcileBackup b e.now e.jobLookup e.createRes
    out.writes ++ backupTrace out.backup es

/-- Inputs of one Restore-executor reconciliation that come from the
environment; the visible set of Backups may change between steps. -/
structure RestoreEnv where
  backups : List Backup
  now : Time
  jobLookup : GetJobResult
  createRes : CreateResult
  deriving Repr, DecidableEq

/-- The statuses persisted over a sequence of Restore reconciliations. -/
def restoreTrace : Restore → List RestoreEnv → List RestoreStatus
  | _, [] => []
  | rst, e :: es =>
    let out := reconcileRestore rst e.backups e.now e.jobLookup e.createRes
    out.writes ++ restoreTrace out.restore es

theorem backupTrace_ok (es : List BackupEnv) (b : Backup) (hinv : backupInv b = true) :
    isChainFrom backupPhaseStep b.status.phase
        ((backupTrace b es).map (fun w => w.phase)) = true ∧
    ∀ w ∈ backupTrace b es,
      (w.phase = BackupPhaseCompleted ∨ w.phase = BackupPhaseFailed) →
        w.startTime.isSome = true := by
  induction es generalizing b with
  | nil => simp [backupTrace, isChainFrom]
  | cons e es ih =>
    obtain ⟨h1, h2, h3, h4⟩ := reconcileBackup_step_ok b e.now e.jobLookup e.createRes hinv
    obtain ⟨ih1, ih2⟩ := ih (reconcileBackup b e.now e.jobLookup e.createRes).backup h3
    constructor
    · rw [backupTrace, List.map_append, isChainFrom_append, h1, h2]
      simpa using ih1
    · intro w hw hterm
      rw [backupTrace, List.mem_append] at hw
      rcases hw with hw | hw
      · exact h4 w hw hterm
      · exact ih2 w hw hterm

theorem restoreTrace_ok (es : List RestoreEnv) (rst : Restore)
    (hinv : restoreInv rst = true) :
    isChainFrom restorePhaseStep rst.status.phase
        ((restoreTrace rst es).map (fun w => w.phase)) = true ∧
    ∀ w ∈ restoreTrace rst es,
      w.phase = RestorePhaseCompleted → w.startTime.isSome = true := by
  induction es generalizing rst with
  | nil => simp [restoreTrace, isChainFrom]
  | cons e es ih =>
    obtain ⟨h1, h2, h3, h4⟩ :=
      reconcileRestore_step_ok rst e.backups e.now e.jobLookup e.createRes hinv
    obtain ⟨ih1, ih2⟩ :=
      ih (reconcileRestore rst e.backups e.now e.jobLookup e.createRes).restore h3
    constructor
    · rw [restoreTrace, List.map_append, isChainFrom_append, h1, h2]
      simpa using ih1
    · intro w hw hterm
      rw [restoreTrace, List.mem_append] at hw
      rcases hw with hw | hw
      · exact h4 w hw hterm
      · exact ih2 w hw hterm

/-! ## Claim theorems -/

/-- A sample wall-clock instant, 2026-01-01 01:00:00. -/
def sampleTime : Time := ⟨2026, 1, 1, 1, 0, 0⟩

/-- A policy named `db-policy` with an every-minute schedule and
`keepLast = 3`, no history. -/
def samplePolicy : BackupPolicy :=
  { name := "db-policy", ns := "default",
    spec := { schedule := "* * * * *",
              target := { pvcName := "postgres-data", ns := "default" },
              retention := some { keepLast := some 3 } },
    status := { lastBackupTime := none, nextScheduledBackup := none, conditions := [] } }

/-- A completed Backup referencing `db-policy`, in its namespace. -/
def sampleCompletedBackup : Backup :=
  { name := "db-policy-20260101-000000", ns := "default",
    spec := { policyRef := "db-policy",
              target := { pvcName := "postgres-data", ns := "default" } },
    status := { phase := BackupPhaseCompleted,
                startTime := some ⟨2026, 1, 1, 0, 0, 0⟩,
                completionTime := some ⟨2026, 1, 1, 0, 0, 5⟩,
                backupLocation := "/backups/db-policy-20260101-000000.tar.gz",
                conditions := [] } }

/-- The `db-policy` policy with a recorded `lastBackupTime`, as it would
stand after a previous interval had fired. -/
def c1PolicyWithHistory : BackupPolicy :=
  { samplePolicy with status :=
      { lastBackupTime := some ⟨2026, 1, 1, 0, 0, 0⟩,
        nextScheduledBackup := none, conditions := [] } }

/-- C1: the claim says a reconciliation creates exactly one Backup when
`now >= nextDue` and zero when `now < nextDue`.  The code never evaluates
the schedule.  Failing inputs, evaluated here: (a) the fresh `db-policy`
(schedule `* * * * *`, so the next due minute boundary after
01:00:30 is 01:01:00 > now) is reconciled at 01:00:30 — the claim requires
zero Backups, yet one is created; (b) `db-policy` with
`lastBackupTime = 2026-01-01T00:00:00` and one existing Backup is
reconciled at 2026-06-01T12:00:00, months past `nextDue` — the claim
requires exactly one new Backup, yet none is created. -/
theorem c1_schedule_never_consulted :
    (reconcileBackupPolicy samplePolicy [] ⟨2026, 1, 1, 1, 0, 30⟩ CreateResult.ok).created =
      some { name := "db-policy-20260101-010030", ns := "default",
             spec := { policyRef := "db-policy",
                       target := { pvcName := "postgres-data", ns := "default" } },
             status := emptyBackupStatus } ∧
    (reconcileBackupPolicy c1PolicyWithHistory [sampleCompletedBackup]
        ⟨2026, 6, 1, 12, 0, 0⟩ CreateResult.ok).created = none := by
  constructor <;> rfl

/-- Four completed Backups referencing `db-policy`, oldest first. -/
def c2Backups : List Backup :=
  [{ sampleCompletedBackup with name := "db-policy-20260101-000000" },
   { sampleCompletedBackup with name := "db-policy-20260101-000100" },
   { sampleCompletedBackup with name := "db-policy-20260101-000200" },
   { sampleCompletedBackup with name := "db-policy-20260101-000300" }]

/-- C2: the claim says that with `keepLast = 3` and 4 completed Backups,
retention cleanup deletes exactly the oldest one.  The code contains no
retention logic at all: reconciling `db-policy` (with `keepLast = 3`)
against its 4 completed Backups leaves the Backup list untouched — nothing
is ever deleted, and no new Backup is created either. -/
theorem c2_no_retention_cleanup :
    (reconcileBackupPolicy samplePolicy c2Backups sampleTime CreateResult.ok).backups =
      c2Backups ∧
    (reconcileBackupPolicy samplePolicy c2Backups sampleTime CreateResult.ok).created =
      none := by
  constructor <;> rfl

/-- C3: if any Backup whose `spec.policyRef` equals the policy's name exists
in the policy's namespace — whatever its phase — then one reconciliation of
the policy is a complete no-op: no Backup is created, the Backup list and
the policy (status included) are returned unchanged, no error and no requeue.
The policy (hence its schedule expression) is universally quantified, so the
outcome is independent of the schedule. -/
theorem c3_existing_backup_skips_creation (p : BackupPolicy) (backups : List Backup)
    (now : Time) (createRes : CreateResult) (b : Backup)
    (hmem : b ∈ backups) (hns : b.ns = p.ns) (href : b.spec.policyRef = p.name) :
    reconcileBackupPolicy p backups now createRes =
      { policy := p, backups := backups, created := none,
        result := noRequeue, err := false } := by
  have hb : b ∈ (backups.filter (fun x => x.ns == p.ns)).filter
      (fun x => x.spec.policyRef == p.name) := by
    simp [List.mem_filter, hmem, hns, href]
  have hlen : ((backups.filter (fun x => x.ns == p.ns)).filter
      (fun x => x.spec.policyRef == p.name)).length > 0 :=
    List.length_pos.mpr (List.ne_nil_of_mem hb)
  simp only [reconcileBackupPolicy]
  rw [if_pos hlen]

/-- A Failed Backup referencing `db-policy`, in its namespace. -/
def c3FailedBackup : Backup :=
  { sampleCompletedBackup with
    status := { sampleCompletedBackup.status with phase := BackupPhaseFailed } }

/-- Witness for C3: a Failed Backup referencing `db-policy` suffices to make
the policy reconciliation a no-op. -/
theorem c3_witness :
    (c3FailedBackup ∈ [c3FailedBackup] ∧ c3FailedBackup.ns = samplePolicy.ns ∧
      c3FailedBackup.spec.policyRef = samplePolicy.name) ∧
    reconcileBackupPolicy samplePolicy [c3FailedBackup] sampleTime CreateResult.ok =
      { policy := samplePolicy, backups := [c3FailedBackup], created := none,
        result := noRequeue, err := false } :=
  ⟨⟨by decide, by decide, by decide⟩,
    c3_existing_backup_skips_creation samplePolicy [c3FailedBackup] sampleTime
      CreateResult.ok c3FailedBackup (by decide) (by decide) (by decide)⟩

/-- C6: the claim says reconciling the fresh `db-policy`
(schedule `* * * * *`, `keepLast = 3`, no prior `lastBackupTime`) at `T`
creates a Backup named `<policy>-<T-compact>`, persists
`status.nextScheduledBackup = T+60s` and requeues with that delay.  The
naming part holds (`db-policy-20260101-010000` at T = 2026-01-01 01:00:00),
but the code never writes `nextScheduledBackup` (it stays `none`) and
returns `ctrl.Result{}` with no requeue. -/
theorem c6_backup_named_but_no_schedule_status :
    (reconcileBackupPolicy samplePolicy [] sampleTime CreateResult.ok).created =
      some { name := "db-policy-" ++ formatCompactTimestamp sampleTime, ns := "default",
             spec := { policyRef := "db-policy",
                       target := { pvcName := "postgres-data", ns := "default" } },
             status := emptyBackupStatus } ∧
    "db-policy-" ++ formatCompactTimestamp sampleTime = "db-policy-20260101-010000" ∧
    (reconcileBackupPolicy samplePolicy [] sampleTime CreateResult.ok).policy.status.nextScheduledBackup =
      none ∧
    (reconcileBackupPolicy samplePolicy [] sampleTime CreateResult.ok).result.requeueAfter =
      none := by
  refine ⟨rfl, rfl, rfl, rfl⟩

/-- C7: the claim says an AlreadyExists failure of the Backup create is
treated as a successful no-op and the policy's status still advances.  The
code has no such special case in the policy reconciler: with an
AlreadyExists create outcome the error is returned (`err = true`) and the
policy's status is left exactly as it was, with no condition written. -/
theorem c7_already_exists_returned_as_error :
    (reconcileBackupPolicy samplePolicy [] sampleTime CreateResult.alreadyExists).err =
      true ∧
    (reconcileBackupPolicy samplePolicy [] sampleTime CreateResult.alreadyExists).policy =
      samplePolicy ∧
    (reconcileBackupPolicy samplePolicy [] sampleTime CreateResult.alreadyExists).created =
      none := by
  refine ⟨rfl, rfl, rfl⟩

/-- A terminal Backup is returned untouched by `reconcileBackup`, with no
status write, no Job creation, no requeue and no error. -/
theorem reconcileBackup_terminal_eq (b : Backup) (now : Time) (jl : GetJobResult)
    (cr : CreateResult)
    (h : b.status.phase = BackupPhaseCompleted ∨ b.status.phase = BackupPhaseFailed) :
    reconcileBackup b now jl cr =
      { backup := b, writes := [], jobCreated := false,
        result := noRequeue, err := false } := by
  rcases h with h | h <;>
    simp [reconcileBackup, h, BackupPhaseCompleted, BackupPhaseFailed]

/-- A terminal Restore is returned untouched by `reconcileRestore`. -/
theorem reconcileRestore_terminal_eq (rst : Restore) (backups : List Backup) (now : Time)
    (jl : GetJobResult) (cr : CreateResult)
    (h : rst.status.phase = RestorePhaseCompleted ∨ rst.status.phase = RestorePhaseFailed) :
    reconcileRestore rst backups now jl cr =
      { restore := rst, writes := [], jobCreated := false,
        result := noRequeue, err := false } := by
  rcases h with h | h <;>
    simp [reconcileRestore, h, RestorePhaseCompleted, RestorePhaseFailed]

/-- C9: once a Backup or Restore is in phase `Completed` or `Failed`, any
further reconciliation — under every wall clock, Job-lookup outcome and
create outcome — is a pure no-op: the object is returned unchanged, no
status is written, no Job is created, and no requeue or error is returned. -/
theorem c9_terminal_reconcile_noop (b : Backup) (rst : Restore) (backups : List Backup)
    (now now2 : Time) (jl jl2 : GetJobResult) (cr cr2 : CreateResult)
    (hb : b.status.phase = BackupPhaseCompleted ∨ b.status.phase = BackupPhaseFailed)
    (hr : rst.status.phase = RestorePhaseCompleted ∨ rst.status.phase = RestorePhaseFailed) :
    reconcileBackup b now jl cr =
      { backup := b, writes := [], jobCreated := false,
        result := noRequeue, err := false } ∧
    reconcileRestore rst backups now2 jl2 cr2 =
      { restore := rst, writes := [], jobCreated := false,
        result := noRequeue, err := false } :=
  ⟨reconcileBackup_terminal_eq b now jl cr hb,
    reconcileRestore_terminal_eq rst backups now2 jl2 cr2 hr⟩

/-- A Completed Restore of `db-policy-20260101-000000` into `pvc-restored`. -/
def c9CompletedRestore : Restore :=
  { name := "r-done", ns := "default",
    spec := { backupName := "db-policy-20260101-000000", targetPVC := "pvc-restored",
              targetNamespace := "" },
    status := { phase := RestorePhaseCompleted,
                startTime := some ⟨2026, 1, 1, 0, 1, 0⟩,
                completionTime := some ⟨2026, 1, 1, 0, 2, 0⟩,
                restoredDataSize := "", conditions := [] } }

/-- Witness for C9 at a Completed Backup and a Completed Restore. -/
theorem c9_witness :
    ((sampleCompletedBackup.status.phase = BackupPhaseCompleted ∨
        sampleCompletedBackup.status.phase = BackupPhaseFailed) ∧
      (c9CompletedRestore.status.phase = RestorePhaseCompleted ∨
        c9CompletedRestore.status.phase = RestorePhaseFailed)) ∧
    (reconcileBackup sampleCompletedBackup sampleTime GetJobResult.notFound CreateResult.ok =
        { backup := sampleCompletedBackup, writes := [], jobCreated := false,
          result := noRequeue, err := false } ∧
      reconcileRestore c9CompletedRestore [] sampleTime GetJobResult.notFound CreateResult.ok =
        { restore := c9CompletedRestore, writes := [], jobCreated := false,
          result := noRequeue, err := false }) :=
  ⟨⟨Or.inl (by decide), Or.inl (by decide)⟩,
    c9_terminal_reconcile_noop sampleCompletedBackup c9CompletedRestore [] sampleTime
      sampleTime GetJobResult.notFound GetJobResult.notFound CreateResult.ok CreateResult.ok
      (Or.inl (by decide)) (Or.inl (by decide))⟩

/-- C8: for a non-terminal Backup and a non-terminal Restore whose
referenced Backup is Completed, when the child Job is absent and its
creation fails with AlreadyExists, the error is swallowed (`err = false`),
the phase ends up `Running` (never `Failed`), and a requeue after the fixed
10-second poll interval is requested. -/
theorem c8_already_exists_create_swallowed (b : Backup) (rst : Restore)
    (backups : List Backup) (now now2 : Time) (bk : Backup)
    (hb : b.status.phase = "" ∨ b.status.phase = BackupPhaseRunning)
    (hr : rst.status.phase = "" ∨ rst.status.phase = RestorePhaseRunning)
    (hlb : lookupBackup backups rst.spec.backupName (resolvedTargetNamespace rst) = some bk)
    (hbk : bk.status.phase = BackupPhaseCompleted) :
    (reconcileBackup b now GetJobResult.notFound CreateResult.alreadyExists).err = false ∧
    (reconcileBackup b now GetJobResult.notFound
        CreateResult.alreadyExists).backup.status.phase = BackupPhaseRunning ∧
    (reconcileBackup b now GetJobResult.notFound CreateResult.alreadyExists).result =
      requeueAfter10 ∧
    (reconcileRestore rst backups now2 GetJobResult.notFound
        CreateResult.alreadyExists).err = false ∧
    (reconcileRestore rst backups now2 GetJobResult.notFound
        CreateResult.alreadyExists).restore.status.phase = RestorePhaseRunning ∧
    (reconcileRestore rst backups now2 GetJobResult.notFound
        CreateResult.alreadyExists).result = requeueAfter10 := by
  rcases hb with hb | hb <;> rcases hr with hr | hr <;>
    simp [reconcileBackup, reconcileRestore, hb, hr, hlb, hbk, BackupPhaseRunning,
      BackupPhaseCompleted, BackupPhaseFailed, RestorePhaseRunning, RestorePhaseCompleted,
      RestorePhaseFailed]

/-- A fresh (phase unset) Backup for `db-policy`. -/
def sampleFreshBackup : Backup :=
  { name := "db-policy-20260101-010000", ns := "default",
    spec := { policyRef := "db-policy",
              target := { pvcName := "postgres-data", ns := "default" } },
    status := emptyBackupStatus }

/-- A fresh (phase unset) Restore referencing the completed sample Backup. -/
def sampleFreshRestore : Restore :=
  { name := "r1", ns := "default",
    spec := { backupName := "db-policy-20260101-000000", targetPVC := "pvc-restored",
              targetNamespace := "" },
    status := emptyRestoreStatus }

/-- Witness for C8 at a fresh Backup and a fresh Restore whose referenced
Backup is Completed. -/
theorem c8_witness :
    ((sampleFreshBackup.status.phase = "" ∨
        sampleFreshBackup.status.phase = BackupPhaseRunning) ∧
      (sampleFreshRestore.status.phase = "" ∨
        sampleFreshRestore.status.phase = RestorePhaseRunning) ∧
      lookupBackup [sampleCompletedBackup] sampleFreshRestore.spec.backupName
          (resolvedTargetNamespace sampleFreshRestore) = some sampleCompletedBackup ∧
      sampleCompletedBackup.status.phase = BackupPhaseCompleted) ∧
    ((reconcileBackup sampleFreshBackup sampleTime GetJobResult.notFound
          CreateResult.alreadyExists).err = false ∧
      (reconcileBackup sampleFreshBackup sampleTime GetJobResult.notFound
          CreateResult.alreadyExists).backup.status.phase = BackupPhaseRunning ∧
      (reconcileBackup sampleFreshBackup sampleTime GetJobResult.notFound
          CreateResult.alreadyExists).result = requeueAfter10 ∧
      (reconcileRestore sampleFreshRestore [sampleCompletedBackup] sampleTime
          GetJobResult.notFound CreateResult.alreadyExists).err = false ∧
      (reconcileRestore sampleFreshRestore [sampleCompletedBackup] sampleTime
          GetJobResult.notFound CreateResult.alreadyExists).restore.status.phase =
        RestorePhaseRunning ∧
      (reconcileRestore sampleFreshRestore [sampleCompletedBackup] sampleTime
          GetJobResult.notFound CreateResult.alreadyExists).result = requeueAfter10) :=
  ⟨⟨Or.inl (by decide), Or.inl (by decide), by decide, by decide⟩,
    c8_already_exists_create_swallowed sampleFreshBackup sampleFreshRestore
      [sampleCompletedBackup] sampleTime sampleTime sampleCompletedBackup
      (Or.inl (by decide)) (Or.inl (by decide)) (by decide) (by decide)⟩

/-- C10: for a non-terminal Backup and a non-terminal Restore whose
referenced Backup is Completed, when the child Job is absent and its
creation fails with any error other than AlreadyExists, the reconciler
persists phase `Failed` and returns the error; a subsequent reconciliation
of the resulting object — under every environment — is a pure no-op, so the
Job creation is never retried. -/
theorem c10_other_create_error_terminal (b : Backup) (rst : Restore)
    (backups backups2 : List Backup) (now now2 now3 now4 : Time)
    (jl2 jl3 : GetJobResult) (cr2 cr3 : CreateResult) (bk : Backup)
    (hb : b.status.phase = "" ∨ b.status.phase = BackupPhaseRunning)
    (hr : rst.status.phase = "" ∨ rst.status.phase = RestorePhaseRunning)
    (hlb : lookupBackup backups rst.spec.backupName (resolvedTargetNamespace rst) = some bk)
    (hbk : bk.status.phase = BackupPhaseCompleted) :
    (reconcileBackup b now GetJobResult.notFound CreateResult.otherError).err = true ∧
    (reconcileBackup b now GetJobResult.notFound
        CreateResult.otherError).backup.status.phase = BackupPhaseFailed ∧
    (reconcileBackup b now GetJobResult.notFound CreateResult.otherError).jobCreated =
      false ∧
    reconcileBackup (reconcileBackup b now GetJobResult.notFound
        CreateResult.otherError).backup now2 jl2 cr2 =
      { backup := (reconcileBackup b now GetJobResult.notFound
            CreateResult.otherError).backup,
        writes := [], jobCreated := false, result := noRequeue, err := false } ∧
    (reconcileRestore rst backups now3 GetJobResult.notFound
        CreateResult.otherError).err = true ∧
    (reconcileRestore rst backups now3 GetJobResult.notFound
        CreateResult.otherError).restore.status.phase = RestorePhaseFailed ∧
    (reconcileRestore rst backups now3 GetJobResult.notFound
        CreateResult.otherError).jobCreated = false ∧
    reconcileRestore (reconcileRestore rst backups now3 GetJobResult.notFound
        CreateResult.otherError).restore backups2 now4 jl3 cr3 =
      { restore := (reconcileRestore rst backups now3 GetJobResult.notFound
            CreateResult.otherError).restore,
        writes := [], jobCreated := false, result := noRequeue, err := false } := by
  have hBphase : (reconcileBackup b now GetJobResult.notFound
      CreateResult.otherError).backup.status.phase = BackupPhaseFailed := by
    rcases hb with hb | hb <;>
      simp [reconcileBackup, hb, BackupPhaseRunning, BackupPhaseCompleted, BackupPhaseFailed]
  have hRphase : (reconcileRestore rst backups now3 GetJobResult.notFound
      CreateResult.otherError).restore.status.phase = RestorePhaseFailed := by
    rcases hr with hr | hr <;>
      simp [reconcileRestore, hr, hlb, hbk, BackupPhaseCompleted, RestorePhaseRunning,
        RestorePhaseCompleted, RestorePhaseFailed]
  refine ⟨?_, hBphase, ?_,
    reconcileBackup_terminal_eq _ now2 jl2 cr2 (Or.inr hBphase), ?_, hRphase, ?_,
    reconcileRestore_terminal_eq _ backups2 now4 jl3 cr3 (Or.inr hRphase)⟩
  · rcases hb with hb | hb <;>
      simp [reconcileBackup, hb, BackupPhaseRunning, BackupPhaseCompleted, BackupPhaseFailed]
  · rcases hb with hb | hb <;>
      simp [reconcileBackup, hb, BackupPhaseRunning, BackupPhaseCompleted, BackupPhaseFailed]
  · rcases hr with hr | hr <;>
      simp [reconcileRestore, hr, hlb, hbk, BackupPhaseCompleted, RestorePhaseRunning,
        RestorePhaseCompleted, RestorePhaseFailed]
  · rcases hr with hr | hr <;>
      simp [reconcileRestore, hr, hlb, hbk, BackupPhaseCompleted, RestorePhaseRunning,
        RestorePhaseCompleted, RestorePhaseFailed]

/-- Witness for C10 at a fresh Backup and a fresh Restore whose referenced
Backup is Completed. -/
theorem c10_witness :
    ((sampleFreshBackup.status.phase = "" ∨
        sampleFreshBackup.status.phase = BackupPhaseRunning) ∧
      (sampleFreshRestore.status.phase = "" ∨
        sampleFreshRestore.status.phase = RestorePhaseRunning) ∧
      lookupBackup [sampleCompletedBackup] sampleFreshRestore.spec.backupName
          (resolvedTargetNamespace sampleFreshRestore) = some sampleCompletedBackup ∧
      sampleCompletedBackup.status.phase = BackupPhaseCompleted) ∧
    ((reconcileBackup sampleFreshBackup sampleTime GetJobResult.notFound
          CreateResult.otherError).err = true ∧
      (reconcileBackup sampleFreshBackup sampleTime GetJobResult.notFound
          CreateResult.otherError).backup.status.phase = BackupPhaseFailed ∧
      (reconcileBackup sampleFreshBackup sampleTime GetJobResult.notFound
          CreateResult.otherError).jobCreated = false ∧
      reconcileBackup (reconcileBackup sampleFreshBackup sampleTime GetJobResult.notFound
          CreateResult.otherError).backup sampleTime GetJobResult.notFound CreateResult.ok =
        { backup := (reconcileBackup sampleFreshBackup sampleTime GetJobResult.notFound
              CreateResult.otherError).backup,
          writes := [], jobCreated := false, result := noRequeue, err := false } ∧
      (reconcileRestore sampleFreshRestore [sampleCompletedBackup] sampleTime
          GetJobResult.notFound CreateResult.otherError).err = true ∧
      (reconcileRestore sampleFreshRestore [sampleCompletedBackup] sampleTime
          GetJobResult.notFound CreateResult.otherError).restore.status.phase =
        RestorePhaseFailed ∧
      (reconcileRestore sampleFreshRestore [sampleCompletedBackup] sampleTime
          GetJobResult.notFound CreateResult.otherError).jobCreated = false ∧
      reconcileRestore (reconcileRestore sampleFreshRestore [sampleCompletedBackup]
          sampleTime GetJobResult.notFound CreateResult.otherError).restore
          [sampleCompletedBackup] sampleTime GetJobResult.notFound CreateResult.ok =
        { restore := (reconcileRestore sampleFreshRestore [sampleCompletedBackup]
              sampleTime GetJobResult.notFound CreateResult.otherError).restore,
          writes := [], jobCreated := false, result := noRequeue, err := false }) :=
  ⟨⟨Or.inl (by decide), Or.inl (by decide), by decide, by decide⟩,
    c10_other_create_error_terminal sampleFreshBackup sampleFreshRestore
      [sampleCompletedBackup] [sampleCompletedBackup] sampleTime sampleTime sampleTime
      sampleTime GetJobResult.notFound GetJobResult.notFound CreateResult.ok CreateResult.ok
      sampleCompletedBackup (Or.inl (by decide)) (Or.inl (by decide)) (by decide)
      (by decide)⟩

/-- C5: for a non-terminal Restore, if the referenced Backup is absent from
the resolved target namespace, or present but not in phase `Completed`, one
reconciliation sets phase `Failed`, creates no Job, and records a single
condition whose reason is `BackupNotFound` (absent) or `BackupNotReady`
(present but not Completed). -/
theorem c5_restore_fails_closed_on_bad_backup (rst : Restore) (backups : List Backup)
    (now : Time) (jl : GetJobResult) (cr : CreateResult)
    (h1 : rst.status.phase ≠ RestorePhaseCompleted)
    (h2 : rst.status.phase ≠ RestorePhaseFailed)
    (hgate : lookupBackup backups rst.spec.backupName (resolvedTargetNamespace rst) = none ∨
      ∃ bk, lookupBackup backups rst.spec.backupName (resolvedTargetNamespace rst) = some bk ∧
        bk.status.phase ≠ BackupPhaseCompleted) :
    (reconcileRestore rst backups now jl cr).restore.status.phase = RestorePhaseFailed ∧
    (reconcileRestore rst backups now jl cr).jobCreated = false ∧
    (lookupBackup backups rst.spec.backupName (resolvedTargetNamespace rst) = none →
      ∃ c, (reconcileRestore rst backups now jl cr).restore.status.conditions = [c] ∧
        c.reason = "BackupNotFound") ∧
    ∀ bk, lookupBackup backups rst.spec.backupName (resolvedTargetNamespace rst) = some bk →
      ∃ c, (reconcileRestore rst backups now jl cr).restore.status.conditions = [c] ∧
        c.reason = "BackupNotReady" := by
  rcases hgate with hlb | ⟨bk, hlb, hbk⟩
  · refine ⟨?_, ?_, ?_, ?_⟩ <;>
      simp [reconcileRestore, hlb, h1, h2]
  · refine ⟨?_, ?_, ?_, ?_⟩
    · simp [reconcileRestore, hlb, h1, h2, hbk]
    · simp [reconcileRestore, hlb, h1, h2, hbk]
    · intro hnone; rw [hnone] at hlb; exact absurd hlb (by simp)
    · intro bk2 hbk2eq
      rw [hlb] at hbk2eq
      obtain rfl : bk = bk2 := by injection hbk2eq
      exact ⟨{ type := "Ready", status := "False", reason := "BackupNotReady",
               message := "Backup is in phase " ++ bk.status.phase ++ ", not Completed",
               lastTransitionTime := now },
        by simp [reconcileRestore, hlb, h1, h2, hbk], rfl⟩

/-- Witness for C5: a fresh Restore referencing a Backup name that resolves
to nothing is failed immediately with reason `BackupNotFound` and no Job. -/
theorem c5_witness :
    (sampleFreshRestore.status.phase ≠ RestorePhaseCompleted ∧
      sampleFreshRestore.status.phase ≠ RestorePhaseFailed ∧
      lookupBackup [] sampleFreshRestore.spec.backupName
        (resolvedTargetNamespace sampleFreshRestore) = none) ∧
    ((reconcileRestore sampleFreshRestore [] sampleTime GetJobResult.notFound
        CreateResult.ok).restore.status.phase = RestorePhaseFailed ∧
      (reconcileRestore sampleFreshRestore [] sampleTime GetJobResult.notFound
        CreateResult.ok).jobCreated = false ∧
      ∃ c, (reconcileRestore sampleFreshRestore [] sampleTime GetJobResult.notFound
          CreateResult.ok).restore.status.conditions = [c] ∧
        c.reason = "BackupNotFound") :=
  ⟨⟨by decide, by decide, rfl⟩,
    (c5_restore_fails_closed_on_bad_backup sampleFreshRestore [] sampleTime
        GetJobResult.notFound CreateResult.ok (by decide) (by decide) (Or.inl rfl)).1,
    (c5_restore_fails_closed_on_bad_backup sampleFreshRestore [] sampleTime
        GetJobResult.notFound CreateResult.ok (by decide) (by decide) (Or.inl rfl)).2.1,
    (c5_restore_fails_closed_on_bad_backup sampleFreshRestore [] sampleTime
        GetJobResult.notFound CreateResult.ok (by decide) (by decide) (Or.inl rfl)).2.2.1
      rfl⟩

/-- C4 counterexample: the claim says a Backup/Restore never reaches a
terminal phase without `Running` having been entered and a start time set.
One reconciliation of the fresh Restore `r1` (phase unset, no start time)
while its referenced Backup is absent persists exactly one status: phase
`Failed`, start time still `none`, and `Running` never written — refuting
the claim as stated for this one-step reconciliation sequence. -/
theorem c4_counterexample :
    restoreTrace sampleFreshRestore
        [{ backups := [], now := sampleTime, jobLookup := GetJobResult.notFound,
           createRes := CreateResult.ok }] =
      [{ phase := RestorePhaseFailed, startTime := none, completionTime := none,
         restoredDataSize := "",
         conditions := [{ type := "Ready", status := "False", reason := "BackupNotFound",
                          message := "Backup db-policy-20260101-000000 not found",
                          lastTransitionTime := sampleTime }] }] := by
  rfl

/-- C4 (amended): over every sequence of reconciliations of a fresh Backup
and a fresh Restore (phase unset), the persisted phase sequence is a chain
of the allowed transitions — for Backups a prefix of
Pending→Running→{Completed|Failed} with a start time set on every terminal
write; for Restores the same, except that the validation gate may also step
Pending→Failed directly, without a start time, when the referenced Backup
is absent or not Completed — `Completed` still requires `Running` first and
carries a start time.  Phases never regress: no transition leaves
`Completed` or `Failed`. -/
theorem c4_amended_phase_chain (b : Backup) (rst : Restore) (es : List BackupEnv)
    (fs : List RestoreEnv) (hb : b.status.phase = "") (hr : rst.status.phase = "") :
    isChainFrom backupPhaseStep "" ((backupTrace b es).map (fun w => w.phase)) = true ∧
    (∀ w ∈ backupTrace b es,
      (w.phase = BackupPhaseCompleted ∨ w.phase = BackupPhaseFailed) →
        w.startTime.isSome = true) ∧
    isChainFrom restorePhaseStep "" ((restoreTrace rst fs).map (fun w => w.phase)) = true ∧
    (∀ w ∈ restoreTrace rst fs,
      w.phase = RestorePhaseCompleted → w.startTime.isSome = true) := by
  have hbi : backupInv b = true := by simp [backupInv, hb]
  have hri : restoreInv rst = true := by simp [restoreInv, hr]
  obtain ⟨hb1, hb2⟩ := backupTrace_ok es b hbi
  obtain ⟨hr1, hr2⟩ := restoreTrace_ok fs rst hri
  rw [hb] at hb1
  rw [hr] at hr1
  exact ⟨hb1, hb2, hr1, hr2⟩

/-- A two-step Backup environment: first the Job is absent and gets
created, then it is found with one success. -/
def c4BackupEnvs : List BackupEnv :=
  [{ now := sampleTime, jobLookup := GetJobResult.notFound, createRes := CreateResult.ok },
   { now := ⟨2026, 1, 1, 1, 0, 10⟩,
     jobLookup := GetJobResult.found
       { name := "db-policy-20260101-010000-job", ns := "default",
         succeeded := 1, failed := 0 },
     createRes := CreateResult.ok }]

/-- A two-step Restore environment over a Completed referenced Backup. -/
def c4RestoreEnvs : List RestoreEnv :=
  [{ backups := [sampleCompletedBackup], now := sampleTime,
     jobLookup := GetJobResult.notFound, createRes := CreateResult.ok },
   { backups := [sampleCompletedBackup], now := ⟨2026, 1, 1, 1, 0, 10⟩,
     jobLookup := GetJobResult.found
       { name := "r1-job", ns := "default", succeeded := 1, failed := 0 },
     createRes := CreateResult.ok }]

/-- Witness for the amended C4 at a fresh Backup and a fresh Restore driven
two steps each to `Completed`. -/
theorem c4_witness :
    (sampleFreshBackup.status.phase = "" ∧ sampleFreshRestore.status.phase = "") ∧
    (isChainFrom backupPhaseStep ""
        ((backupTrace sampleFreshBackup c4BackupEnvs).map (fun w => w.phase)) = true ∧
      (∀ w ∈ backupTrace sampleFreshBackup c4BackupEnvs,
        (w.phase = BackupPhaseCompleted ∨ w.phase = BackupPhaseFailed) →
          w.startTime.isSome = true) ∧
      isChainFrom restorePhaseStep ""
        ((restoreTrace sampleFreshRestore c4RestoreEnvs).map (fun w => w.phase)) = true ∧
      (∀ w ∈ restoreTrace sampleFreshRestore c4RestoreEnvs,
        w.phase = RestorePhaseCompleted → w.startTime.isSome = true)) :=
  ⟨⟨rfl, rfl⟩,
    c4_amended_phase_chain sampleFreshBackup sampleFreshRestore c4BackupEnvs
      c4RestoreEnvs rfl rfl⟩
